import Mathlib

/-!
A shallow embedding of the rekt-nostr-mirror publication subsystem
(src/nip23-publisher.ts and the signer factory in src/nostr.ts), together
with theorems about its behaviour.

External effects (URL parsing, signing, relay I/O, timers) are modelled as
explicit parameters and event traces; all embedded functions are executable.
-/

namespace RektMirror

/-! ## JavaScript string primitives used by the source -/

/-- JS `String.prototype.startsWith`, embedded on the character data. -/
def jsStartsWith (s p : String) : Bool :=
  p.data.isPrefixOf s.data

/-- JS `String.prototype.substring(start, stop)`. -/
def jsSubstring (s : String) (start stop : Nat) : String :=
  String.mk ((s.data.take stop).drop start)

/-- JS truthiness of an optional string field: `undefined` and `""` are falsy. -/
def jsTruthyStr (o : Option String) : Bool :=
  match o with
  | none => false
  | some s => s != ""

/-! ## Data model (scraper.ts `RektArticle`, restricted to fields the
publisher reads; `publishedAtMs` is `publishedAt.getTime()`). -/

structure RektArticle where
  title : String
  url : String
  publishedAtMs : Nat
  summary : Option String
  image : Option String
  tags : List String
deriving DecidableEq

/-- `PublishOptions` from nip23-publisher.ts; `relays?: string[]` is `none`
when the field is absent. -/
structure PublishOptions where
  relays : Option (List String)
  signerString : String
deriving DecidableEq

/-- The publisher's fixed `defaultRelays` list. -/
def defaultRelays : List String :=
  ["wss://relay.damus.io", "wss://nos.lol", "wss://relay.nostr.band",
   "wss://nostr.wine", "wss://relay.snort.social"]

/-- Relay resolution `options.relays || this.defaultRelays`: in JS an array
value — even an empty array — is truthy, so the default set is substituted
only when the field is absent. -/
def resolveRelays (opts : PublishOptions) : List String :=
  match opts.relays with
  | some rs => rs
  | none => defaultRelays

/-! ## Event builder -/

/-- `createArticleId`, applied to the path component of the article URL
(`new URL(url).pathname`, computed by the platform URL parser):
`.replace(/^\//, "")` drops one leading slash, `.replace(/\/$/, "")` drops
one trailing slash, and `|| "article"` substitutes the fallback when the
result is the (falsy) empty string. -/
def stripLeadingSlash (s : String) : String :=
  if jsStartsWith s "/" then String.mk (s.data.drop 1) else s

def stripTrailingSlash (s : String) : String :=
  if "/".data.isSuffixOf s.data then String.mk s.data.dropLast else s

def createArticleId (urlPathname : String) : String :=
  let p := stripTrailingSlash (stripLeadingSlash urlPathname)
  if p = "" then "article" else p

/-- Conditional tag push: `if (article.summary) tags.push(["summary", ...])`
(JS truthiness: absent or empty string pushes nothing). -/
def optionalTag (tag : String) (v : Option String) : List (List String) :=
  match v with
  | some s => if s != "" then [[tag, s]] else []
  | none => []

/-- `buildTags` from nip23-publisher.ts: the sequence of `push` calls on the
tag array, in source order. -/
def buildTags (article : RektArticle) (articleId : String) : List (List String) :=
  [["d", articleId],
   ["title", article.title],
   ["published_at", toString (article.publishedAtMs / 1000)],
   ["client", "rekt-nostr-mirror"],
   ["r", article.url]]
  ++ optionalTag "summary" article.summary
  ++ optionalTag "image" article.image
  ++ article.tags.map (fun t => ["t", t.toLower])
  ++ [["subject", "DeFi Security"], ["subject", "Blockchain"]]

/-- First element of a tag entry (its name). -/
def tagName (t : List String) : String := t.headD ""

/-- The unsigned event payload built by `publishArticle`. -/
structure EventPayload where
  kind : Nat
  created_at : Nat
  content : String
  tags : List (List String)
deriving DecidableEq

/-! ## Signer factory (src/nostr.ts `createSigner`) and `initialize` -/

/-- The signer variants the factory can produce. -/
inductive SignerKind where
  | privateKey (key : String)
  | bunker (uri : String)
deriving DecidableEq

/-- Outcomes of the external signer operations: local key parsing
(`PrivateKeySigner.fromKey`), bunker connection
(`NostrConnectSigner.fromBunkerURI`) and validation (`getPublicKey`). -/
structure SignerEnv where
  fromKey : String → Except String Unit
  fromBunkerURI : String → Except String Unit
  getPublicKey : SignerKind → Except String String

/-- `createSigner`: prefix dispatch, then validation by `getPublicKey`.
All thrown errors are `Error` instances, modelled as strings. -/
def createSigner (env : SignerEnv) (s : String) : Except String SignerKind :=
  let made : Except String SignerKind :=
    if jsStartsWith s "nsec" then
      match env.fromKey s with
      | Except.error e => Except.error e
      | Except.ok _ => Except.ok (SignerKind.privateKey s)
    else if jsStartsWith s "ncryptsec" then
      Except.error "Ncryptsec signers are not supported"
    else if jsStartsWith s "bunker://" then
      match env.fromBunkerURI s with
      | Except.error e => Except.error e
      | Except.ok _ => Except.ok (SignerKind.bunker s)
    else
      Except.error ("Invalid signer provided: " ++ jsSubstring s 0 10 ++
        "... Must start with \x27nsec\x27 or \x27bunker://\x27")
  match made with
  | Except.error e => Except.error e
  | Except.ok sg =>
    match env.getPublicKey sg with
    | Except.error e => Except.error e
    | Except.ok _ => Except.ok sg

/-- `initialize` from nip23-publisher.ts: on success the signer is attached,
on failure the error is rethrown wrapped with context (every error thrown by
`createSigner` is an `Error` instance, so the `instanceof` guard passes). -/
def initializeSigner (env : SignerEnv) (s : String) : Except String SignerKind :=
  match createSigner env s with
  | Except.ok sg => Except.ok sg
  | Except.error e => Except.error ("Failed to initialize signer: " ++ e)

/-! ## Single-article publish -/

/-- The observable actions of one `publishArticle` call, in order. -/
inductive PubStep where
  | build (ev : EventPayload)
  | sign
  | broadcast (relays : List String)
  | waitConfirm (relays : List String)
deriving DecidableEq

/-- `publishArticle`. External collaborators appear as parameters:
`pathname` is the platform URL parser (`new URL(url).pathname`), `nowSec` is
`Math.floor(Date.now() / 1000)`, and `signOutcome` is the signer's
`signEvent` result (event id on success, thrown error message on failure).
Returns the result together with the trace of actions performed. -/
def publishArticle (signer : Option SignerKind) (pathname : String → String)
    (nowSec : Nat) (signOutcome : EventPayload → Except String String)
    (article : RektArticle) (markdownContent : String)
    (opts : PublishOptions) : Except String String × List PubStep :=
  match signer with
  | none => (Except.error "Publisher not initialized. Call initialize() first.", [])
  | some _ =>
    let relays := resolveRelays opts
    let articleId := createArticleId (pathname article.url)
    let tags := buildTags article articleId
    let event : EventPayload :=
      { kind := 30023, created_at := nowSec, content := markdownContent, tags := tags }
    match signOutcome event with
    | Except.error e => (Except.error e, [PubStep.build event, PubStep.sign])
    | Except.ok eventId =>
      (Except.ok eventId,
       [PubStep.build event, PubStep.sign, PubStep.broadcast relays,
        PubStep.waitConfirm relays])

/-! ## Confirmation wait (`waitForPublication`) -/

/-- The quorum check `confirmations >= Math.ceil(relays.length / 2)`;
the ceiling of `n / 2` over the naturals is `(n + 1) / 2`. -/
def quorumTarget (relays : List String) : Nat :=
  (relays.length + 1) / 2

/-- The spec's own description of the quorum target, for comparison:
ceiling(number of target relays divided by 2), with an exact rational
division. -/
def specQuorumCeil (n : Nat) : Nat :=
  Nat.ceil ((n : ℚ) / 2)

/-- The 5000 ms cap passed to `setTimeout` in `waitForPublication`. -/
def waitTimeoutMs : Nat := 5000

/-- State of one `waitForPublication` promise: the `confirmations` counter,
whether the relay subscription is still live, whether the timeout is still
pending, and whether `resolve` has been called. -/
structure WaitState where
  confirmations : Nat
  subActive : Bool
  timeoutActive : Bool
  resolved : Bool
deriving DecidableEq

/-- External events the wait reacts to: the subscription yielding one
observation of the event on some relay, or the 5-second timer firing. -/
inductive WaitEvent where
  | obs
  | timeoutFire
deriving DecidableEq

def waitInit : WaitState :=
  { confirmations := 0, subActive := true, timeoutActive := true, resolved := false }

/-- One callback execution of `waitForPublication`: the subscription handler
(increment; on reaching quorum clear the timeout, unsubscribe, resolve) or
the timeout handler (unsubscribe, resolve). A handler only runs while its
source is still armed: an unsubscribed subscription yields no callbacks and
a cleared timeout never fires. -/
def waitStep (relays : List String) (s : WaitState) (e : WaitEvent) : WaitState :=
  match e with
  | WaitEvent.obs =>
    if s.subActive then
      let c := s.confirmations + 1
      if quorumTarget relays ≤ c then
        { confirmations := c, subActive := false, timeoutActive := false, resolved := true }
      else
        { s with confirmations := c }
    else s
  | WaitEvent.timeoutFire =>
    if s.timeoutActive then
      { s with subActive := false, timeoutActive := false, resolved := true }
    else s

/-- Run the wait over a trace of external events, from the initial state. -/
def waitRun (relays : List String) (trace : List WaitEvent) : WaitState :=
  trace.foldl (waitStep relays) waitInit

/-! ## Batch publish (`publishMultipleArticles`) -/

/-- The observable actions of the batch loop: attempting item `i`
(its `publishArticle` call), and the inter-publication sleep. -/
inductive BatchStep where
  | item (i : Nat)
  | sleep (ms : Nat)
deriving DecidableEq

/-- The batch loop body, iterated over the per-item `publishArticle`
outcomes, carrying the current index `i`. A successful item pushes its
event id and, when it is not the last item, sleeps `delayMs`; a thrown
error is caught (logged) and the loop simply continues — note the sleep
sits inside the `try`, so a failed item is followed by no sleep. -/
def batchGo (delayMs : Nat) (i : Nat) :
    List (Except String String) → List String × List BatchStep
  | [] => ([], [])
  | o :: rest =>
    let r := batchGo delayMs (i + 1) rest
    match o with
    | Except.ok eventId =>
      (eventId :: r.1,
       BatchStep.item i ::
         (if rest.isEmpty then r.2 else BatchStep.sleep delayMs :: r.2))
    | Except.error _ => (r.1, BatchStep.item i :: r.2)

/-- `publishMultipleArticles`: run the loop over the items in order, each
item's outcome being its own `publishArticle` call (`signOutcome` indexed by
item position). Returns the collected event ids and the action trace. -/
def publishMultipleArticles (signer : Option SignerKind)
    (pathname : String → String) (nowSec : Nat)
    (signOutcome : Nat → EventPayload → Except String String)
    (items : List (RektArticle × String)) (opts : PublishOptions)
    (delayMs : Nat) : List String × List BatchStep :=
  batchGo delayMs 0
    (items.enum.map (fun p =>
      (publishArticle signer pathname nowSec (signOutcome p.1) p.2.1 p.2.2 opts).1))

/-- Sample signer environment in which every external operation succeeds. -/
def signerEnvOk : SignerEnv :=
  { fromKey := fun _ => Except.ok ()
    fromBunkerURI := fun _ => Except.ok ()
    getPublicKey := fun _ => Except.ok "pubkey" }

/-- Sample article used to instantiate universally quantified theorems. -/
def articleW : RektArticle :=
  { title := "T", url := "https://site/p", publishedAtMs := 0,
    summary := none, image := none, tags := [] }

/-- Invariant of the confirmation wait: a resolved wait has released both its
subscription and its timeout, an unresolved wait still holds both, and (when
the quorum target is positive) reaching the target implies resolution. -/
def WaitInv (relays : List String) (s : WaitState) : Prop :=
  (s.resolved = true → s.subActive = false ∧ s.timeoutActive = false)
  ∧ (s.resolved = false → s.subActive = true ∧ s.timeoutActive = true)
  ∧ (0 < quorumTarget relays → quorumTarget relays ≤ s.confirmations →
      s.resolved = true)

theorem waitInv_init (relays : List String) : WaitInv relays waitInit := by
  refine ⟨by simp [waitInit], by simp [waitInit], ?_⟩
  intro hq hle
  simp [waitInit] at hle
  omega

theorem waitInv_step (relays : List String) (s : WaitState) (e : WaitEvent)
    (h : WaitInv relays s) : WaitInv relays (waitStep relays s e) := by
  obtain ⟨c, sa, ta, r⟩ := s
  obtain ⟨h1, h2, h3⟩ := h
  cases e <;> cases sa <;> cases ta <;> cases r <;>
    simp_all [WaitInv, waitStep] <;>
    first
      | omega
      | (split <;> simp_all <;> omega)

theorem waitInv_foldl (relays : List String) :
    ∀ (trace : List WaitEvent) (s : WaitState), WaitInv relays s →
      WaitInv relays (trace.foldl (waitStep relays) s)
  | [], _, h => h
  | e :: tr, s, h => waitInv_foldl relays tr _ (waitInv_step relays s e h)

theorem waitInv_run (relays : List String) (trace : List WaitEvent) :
    WaitInv relays (waitRun relays trace) :=
  waitInv_foldl relays trace waitInit (waitInv_init relays)

theorem waitStep_resolved_mono (relays : List String) (s : WaitState)
    (e : WaitEvent) (h : s.resolved = true) :
    (waitStep relays s e).resolved = true := by
  obtain ⟨c, sa, ta, r⟩ := s
  cases e <;> cases sa <;> cases ta <;> simp_all [waitStep] <;>
    split <;> simp_all

theorem waitFoldl_resolved_mono (relays : List String) :
    ∀ (trace : List WaitEvent) (s : WaitState), s.resolved = true →
      (trace.foldl (waitStep relays) s).resolved = true
  | [], _, h => h
  | e :: tr, s, h =>
    waitFoldl_resolved_mono relays tr _ (waitStep_resolved_mono relays s e h)

theorem waitStep_timeout_resolves (relays : List String) (s : WaitState)
    (h : WaitInv relays s) :
    (waitStep relays s WaitEvent.timeoutFire).resolved = true := by
  obtain ⟨c, sa, ta, r⟩ := s
  obtain ⟨h1, h2, h3⟩ := h
  cases ta <;> cases r <;> simp_all [waitStep]

/-- After any run whose trace contains the timer firing, the wait is
resolved and the subscription is released. -/
theorem waitRun_timeout_mem (relays : List String) (trace : List WaitEvent)
    (h : WaitEvent.timeoutFire ∈ trace) :
    (waitRun relays trace).resolved = true
    ∧ (waitRun relays trace).subActive = false := by
  obtain ⟨l1, l2, rfl⟩ := List.append_of_mem h
  have hinv1 : WaitInv relays (l1.foldl (waitStep relays) waitInit) :=
    waitInv_foldl relays l1 waitInit (waitInv_init relays)
  have hres : (waitStep relays (l1.foldl (waitStep relays) waitInit)
      WaitEvent.timeoutFire).resolved = true :=
    waitStep_timeout_resolves relays _ hinv1
  have hrw : waitRun relays (l1 ++ WaitEvent.timeoutFire :: l2)
      = l2.foldl (waitStep relays)
          (waitStep relays (l1.foldl (waitStep relays) waitInit)
            WaitEvent.timeoutFire) := by
    simp [waitRun, List.foldl_append]
  have hresolved : (waitRun relays (l1 ++ WaitEvent.timeoutFire :: l2)).resolved = true := by
    rw [hrw]
    exact waitFoldl_resolved_mono relays l2 _ hres
  have hinv : WaitInv relays (waitRun relays (l1 ++ WaitEvent.timeoutFire :: l2)) :=
    waitInv_run relays _
  exact ⟨hresolved, (hinv.1 hresolved).1⟩

/-- Claim C1: during the confirmation wait, as soon as the confirmation
counter reaches the quorum target the pending timeout is cancelled, the
subscription is unsubscribed and the wait resolves successfully; and on
every exit path a resolved wait has unsubscribed, so the wait never leaves
a live subscription open after it resolves. -/
theorem waitRun_quorum_and_cleanup (relays : List String)
    (trace : List WaitEvent) :
    ((waitRun relays trace).resolved = true →
      (waitRun relays trace).subActive = false
      ∧ (waitRun relays trace).timeoutActive = false)
    ∧ (0 < quorumTarget relays →
       quorumTarget relays ≤ (waitRun relays trace).confirmations →
        (waitRun relays trace).resolved = true
        ∧ (waitRun relays trace).subActive = false
        ∧ (waitRun relays trace).timeoutActive = false) := by
  have hinv : WaitInv relays (waitRun relays trace) := waitInv_run relays trace
  refine ⟨hinv.1, ?_⟩
  intro hq hle
  have hres : (waitRun relays trace).resolved = true := hinv.2.2 hq hle
  exact ⟨hres, hinv.1 hres⟩

/-- Witness for C1: with the five default relays (quorum target 3), three
observations resolve the wait with both subscription and timeout released,
with no timer event in the trace. -/
theorem waitRun_quorum_and_cleanup_witness :
    0 < quorumTarget defaultRelays
    ∧ quorumTarget defaultRelays
        ≤ (waitRun defaultRelays
            [WaitEvent.obs, WaitEvent.obs, WaitEvent.obs]).confirmations
    ∧ ((waitRun defaultRelays
          [WaitEvent.obs, WaitEvent.obs, WaitEvent.obs]).resolved = true
       ∧ (waitRun defaultRelays
            [WaitEvent.obs, WaitEvent.obs, WaitEvent.obs]).subActive = false
       ∧ (waitRun defaultRelays
            [WaitEvent.obs, WaitEvent.obs, WaitEvent.obs]).timeoutActive = false) :=
  ⟨by decide, by decide,
    (waitRun_quorum_and_cleanup defaultRelays
      [WaitEvent.obs, WaitEvent.obs, WaitEvent.obs]).2 (by decide) (by decide)⟩

/-- Claim C2: the confirmation wait never rejects — whenever the 5000 ms
timeout fires (including with zero observed confirmations), the subscription
is unsubscribed and the wait resolves successfully. -/
theorem waitRun_timeout_resolves_successfully (relays : List String)
    (trace : List WaitEvent) (h : WaitEvent.timeoutFire ∈ trace) :
    (waitRun relays trace).resolved = true
    ∧ (waitRun relays trace).subActive = false :=
  waitRun_timeout_mem relays trace h

/-- Witness for C2: the timer firing with zero observations resolves the
wait and releases the subscription. -/
theorem waitRun_timeout_resolves_successfully_witness :
    ((waitRun defaultRelays [WaitEvent.timeoutFire]).resolved = true
      ∧ (waitRun defaultRelays [WaitEvent.timeoutFire]).subActive = false)
    ∧ (waitRun defaultRelays [WaitEvent.timeoutFire]).confirmations = 0 :=
  ⟨waitRun_timeout_resolves_successfully defaultRelays [WaitEvent.timeoutFire]
      (by decide),
    by decide⟩

/-- Ceiling of `n / 2` over the rationals, expressed in natural arithmetic. -/
theorem ceil_half_eq (n : ℕ) : Nat.ceil ((n : ℚ) / 2) = (n + 1) / 2 := by
  apply le_antisymm
  · rw [Nat.ceil_le, div_le_iff₀ (by norm_num : (0 : ℚ) < 2)]
    exact_mod_cast (by omega : n ≤ ((n + 1) / 2) * 2)
  · rcases Nat.eq_zero_or_pos ((n + 1) / 2) with h | h
    · rw [h]
      exact Nat.zero_le _
    · have h2 : (n + 1) / 2 - 1 < Nat.ceil ((n : ℚ) / 2) := by
        rw [Nat.lt_ceil, lt_div_iff₀ (by norm_num : (0 : ℚ) < 2)]
        exact_mod_cast (by omega : ((n + 1) / 2 - 1) * 2 < n)
      omega

/-- Claim C3: the quorum target equals ceiling(number of target relays
divided by 2); in particular for relay counts 1, 2, 3, 4, 5 the targets are
1, 1, 2, 2, 3. -/
theorem quorumTarget_is_ceiling :
    (∀ relays : List String, quorumTarget relays = specQuorumCeil relays.length)
    ∧ quorumTarget (List.replicate 1 "r") = 1
    ∧ quorumTarget (List.replicate 2 "r") = 1
    ∧ quorumTarget (List.replicate 3 "r") = 2
    ∧ quorumTarget (List.replicate 4 "r") = 2
    ∧ quorumTarget (List.replicate 5 "r") = 3 :=
  ⟨fun relays => (ceil_half_eq relays.length).symm,
    by decide, by decide, by decide, by decide, by decide⟩

/-- Claim C6: the article identifier is a pure function of the URL path:
a single leading and a single trailing slash are stripped, the empty result
falls back to the literal "article"; path /x/y/ gives x/y, path / gives the
fallback, path /solo gives solo, and re-deriving from the same path always
yields the same identifier. -/
theorem createArticleId_spec :
    createArticleId "/x/y/" = "x/y"
    ∧ createArticleId "/" = "article"
    ∧ createArticleId "/solo" = "solo"
    ∧ ∀ p : String, createArticleId p = createArticleId p :=
  ⟨by decide, by decide, by decide, fun _ => rfl⟩

theorem map_t_lower : ∀ l : List String,
    List.map (tagName ∘ fun t => ["t", t.toLower]) l
      = List.replicate l.length "t"
  | [] => rfl
  | x :: xs => by
    simp [map_t_lower xs, Function.comp_apply, tagName, List.replicate]

/-- Claim C7: for every article, the tag list is, in order: the d tag with
the derived identifier first, then title, published_at (seconds as a decimal
string), client, r, then summary and image only when the article has them,
then one lower-cased t tag per topic tag, then the two fixed subject tags;
in particular exactly one d tag, and it is the first element. -/
theorem buildTags_spec (a : RektArticle) (artId : String) :
    (buildTags a artId).head? = some ["d", artId]
    ∧ (buildTags a artId).countP (fun t => tagName t == "d") = 1
    ∧ (buildTags a artId).map tagName =
      ["d", "title", "published_at", "client", "r"]
      ++ (if jsTruthyStr a.summary then ["summary"] else [])
      ++ (if jsTruthyStr a.image then ["image"] else [])
      ++ a.tags.map (fun _ => "t")
      ++ ["subject", "subject"] := by
  refine ⟨rfl, ?_, ?_⟩
  · cases hs : a.summary <;> cases hi : a.image <;>
      simp [buildTags, optionalTag, tagName, hs, hi, List.countP_append,
        List.countP_cons, List.countP_map, Function.comp] <;>
      (try split_ifs) <;>
      simp_all [tagName]
  · cases hs : a.summary <;> cases hi : a.image <;>
      simp [buildTags, optionalTag, tagName, jsTruthyStr, hs, hi,
        List.map_map, Function.comp] <;>
      (try split_ifs) <;>
      simp_all [tagName, map_t_lower]

/-! ## Batch loop lemmas -/

theorem batchGo_fst (delayMs : Nat) :
    ∀ (i : Nat) (os : List (Except String String)),
      (batchGo delayMs i os).1 = os.filterMap Except.toOption
  | _, [] => rfl
  | i, o :: rest => by
    cases o <;>
      simp [batchGo, Except.toOption, List.filterMap_cons,
        batchGo_fst delayMs (i + 1) rest]

/-- The indices of attempted items in the batch trace, in order. -/
def itemIndices (tr : List BatchStep) : List Nat :=
  tr.filterMap (fun st =>
    match st with
    | BatchStep.item j => some j
    | BatchStep.sleep _ => none)

theorem batchGo_itemIndices (delayMs : Nat) :
    ∀ (i : Nat) (os : List (Except String String)),
      itemIndices (batchGo delayMs i os).2 = List.range' i os.length
  | _, [] => rfl
  | i, o :: rest => by
    have ih := batchGo_itemIndices delayMs (i + 1) rest
    cases o <;> cases rest <;>
      simp_all [batchGo, itemIndices, List.range'_succ]

/-- Number of sleeps in the batch trace. -/
def sleepCount (tr : List BatchStep) : Nat :=
  tr.countP (fun st =>
    match st with
    | BatchStep.sleep _ => true
    | BatchStep.item _ => false)

def isOkOutcome (o : Except String String) : Bool :=
  match o with
  | Except.ok _ => true
  | Except.error _ => false

theorem batchGo_sleepCount (delayMs : Nat) :
    ∀ (i : Nat) (os : List (Except String String)),
      sleepCount (batchGo delayMs i os).2 = os.dropLast.countP isOkOutcome
  | _, [] => rfl
  | i, [o] => by cases o <;> simp [batchGo, sleepCount]
  | i, o :: o2 :: rest => by
    have ih := batchGo_sleepCount delayMs (i + 1) (o2 :: rest)
    cases o <;>
      simp_all [batchGo, sleepCount, isOkOutcome, List.dropLast,
        List.countP_cons]

/-- Claim C4: the batch processes its items strictly in order, a failing
item is caught and the loop proceeds, and the returned list holds the event
ids of exactly the succeeding items in their original relative order. -/
theorem publishMultipleArticles_results (signer : Option SignerKind)
    (pathname : String → String) (nowSec : Nat)
    (signOutcome : Nat → EventPayload → Except String String)
    (items : List (RektArticle × String)) (opts : PublishOptions)
    (delayMs : Nat) :
    (publishMultipleArticles signer pathname nowSec signOutcome items opts delayMs).1
      = (items.enum.map (fun p =>
          (publishArticle signer pathname nowSec (signOutcome p.1)
            p.2.1 p.2.2 opts).1)).filterMap Except.toOption
    ∧ itemIndices
        (publishMultipleArticles signer pathname nowSec signOutcome items opts delayMs).2
      = List.range items.length := by
  constructor
  · exact batchGo_fst delayMs 0 _
  · rw [publishMultipleArticles, batchGo_itemIndices delayMs 0 _,
      List.range_eq_range']
    simp

/-- Counterexample for claim C5: a batch of two items whose first item
fails produces no sleep at all between the two items — the trace is just
the two attempts, with no sleep of the 5000 ms default delay. -/
theorem batchGo_no_sleep_after_failure :
    (batchGo 5000 0 [Except.error "boom", Except.ok "id1"]).2
      = [BatchStep.item 0, BatchStep.item 1]
    ∧ BatchStep.sleep 5000 ∉ (batchGo 5000 0 [Except.error "boom", Except.ok "id1"]).2 := by
  decide

/-- Claim C5 as amended: the loop sleeps for the configured delay exactly
after each successfully published item that is not the last item; after a
failed item the sleep is skipped (it sits inside the try block), and there
is never a sleep after the last item. -/
theorem batchGo_sleep_discipline :
    (∀ (delayMs i : Nat) (os : List (Except String String)),
      sleepCount (batchGo delayMs i os).2 = os.dropLast.countP isOkOutcome)
    ∧ (∀ (delayMs i : Nat) (e : String) (rest : List (Except String String)),
        (batchGo delayMs i (Except.error e :: rest)).2
          = BatchStep.item i :: (batchGo delayMs (i + 1) rest).2)
    ∧ (∀ (delayMs i : Nat) (eid : String) (rest : List (Except String String)),
        rest ≠ [] →
        (batchGo delayMs i (Except.ok eid :: rest)).2
          = BatchStep.item i :: BatchStep.sleep delayMs
              :: (batchGo delayMs (i + 1) rest).2)
    ∧ (∀ (delayMs i : Nat) (eid : String),
        (batchGo delayMs i [Except.ok eid]).2 = [BatchStep.item i]) := by
  refine ⟨batchGo_sleepCount, ?_, ?_, ?_⟩
  · intro delayMs i e rest
    simp [batchGo]
  · intro delayMs i eid rest h
    simp [batchGo, List.isEmpty_iff, h]
  · intro delayMs i eid
    simp [batchGo]

/-- Witness for the amended C5: a successful first item of two is followed
by the sleep. -/
theorem batchGo_sleep_discipline_witness :
    (batchGo 5000 0 (Except.ok "a" :: [Except.ok "b"])).2
      = BatchStep.item 0 :: BatchStep.sleep 5000
          :: (batchGo 5000 1 [Except.ok "b"]).2 :=
  batchGo_sleep_discipline.2.2.1 5000 0 "a" [Except.ok "b"] (by simp)

/-! ## Signer dispatch lemmas -/

theorem jsPrefix_of_jsPrefix_le (s p q : String)
    (hp : jsStartsWith s p = true) (hq : jsStartsWith s q = true)
    (h : p.data.length ≤ q.data.length) : p.data <+: q.data := by
  rw [jsStartsWith, List.isPrefixOf_iff_prefix] at hp hq
  exact List.prefix_of_prefix_length_le hp hq h

theorem not_nsec_of_ncryptsec (s : String)
    (h : jsStartsWith s "ncryptsec" = true) :
    jsStartsWith s "nsec" = false := by
  cases hb : jsStartsWith s "nsec"
  · rfl
  · exact absurd (jsPrefix_of_jsPrefix_le s "nsec" "ncryptsec" hb h (by decide))
      (by decide)

theorem not_nsec_of_bunker (s : String)
    (h : jsStartsWith s "bunker://" = true) :
    jsStartsWith s "nsec" = false := by
  cases hb : jsStartsWith s "nsec"
  · rfl
  · exact absurd (jsPrefix_of_jsPrefix_le s "nsec" "bunker://" hb h (by decide))
      (by decide)

theorem not_ncryptsec_of_bunker (s : String)
    (h : jsStartsWith s "bunker://" = true) :
    jsStartsWith s "ncryptsec" = false := by
  cases hb : jsStartsWith s "ncryptsec"
  · rfl
  · exact absurd
      (jsPrefix_of_jsPrefix_le s "ncryptsec" "bunker://" hb h (by decide))
      (by decide)

/-- Claim C8: signer creation dispatches on the signer string's prefix —
nsec yields a validated local-key signer, ncryptsec fails fast with the
fixed not-supported error, bunker:// yields a validated remote signer, any
other string fails with the invalid-signer error; the created signer is
validated by fetching its public key, a validation error propagates, and
any creation error is fatal to initialization, which rethrows it wrapped
with context. -/
theorem createSigner_dispatch (env : SignerEnv) (s : String) :
    (∀ pk, jsStartsWith s "nsec" = true → env.fromKey s = Except.ok () →
      env.getPublicKey (SignerKind.privateKey s) = Except.ok pk →
      createSigner env s = Except.ok (SignerKind.privateKey s))
    ∧ (jsStartsWith s "ncryptsec" = true →
      createSigner env s = Except.error "Ncryptsec signers are not supported")
    ∧ (∀ pk, jsStartsWith s "bunker://" = true →
      env.fromBunkerURI s = Except.ok () →
      env.getPublicKey (SignerKind.bunker s) = Except.ok pk →
      createSigner env s = Except.ok (SignerKind.bunker s))
    ∧ (jsStartsWith s "nsec" = false → jsStartsWith s "ncryptsec" = false →
      jsStartsWith s "bunker://" = false →
      createSigner env s = Except.error ("Invalid signer provided: "
        ++ jsSubstring s 0 10
        ++ "... Must start with \x27nsec\x27 or \x27bunker://\x27"))
    ∧ (∀ e, jsStartsWith s "nsec" = true → env.fromKey s = Except.ok () →
      env.getPublicKey (SignerKind.privateKey s) = Except.error e →
      createSigner env s = Except.error e)
    ∧ (∀ e, createSigner env s = Except.error e →
      initializeSigner env s
        = Except.error ("Failed to initialize signer: " ++ e))
    ∧ (∀ sg, createSigner env s = Except.ok sg →
      initializeSigner env s = Except.ok sg) := by
  refine ⟨?_, ?_, ?_, ?_, ?_, ?_, ?_⟩
  · intro pk h1 h2 h3
    simp [createSigner, h1, h2, h3]
  · intro h
    simp [createSigner, not_nsec_of_ncryptsec s h, h]
  · intro pk h hb hg
    simp [createSigner, not_nsec_of_bunker s h, not_ncryptsec_of_bunker s h,
      h, hb, hg]
  · intro h1 h2 h3
    simp [createSigner, h1, h2, h3]
  · intro e h1 h2 h3
    simp [createSigner, h1, h2, h3]
  · intro e h
    simp [initializeSigner, h]
  · intro sg h
    simp [initializeSigner, h]

/-- Witness for C8: in the all-succeeding environment, an
ncryptsec-prefixed string fails fast and initialization wraps that error. -/
theorem createSigner_dispatch_witness :
    createSigner signerEnvOk "ncryptsec1xyz"
      = Except.error "Ncryptsec signers are not supported"
    ∧ initializeSigner signerEnvOk "ncryptsec1xyz"
      = Except.error ("Failed to initialize signer: "
          ++ "Ncryptsec signers are not supported") :=
  have h := createSigner_dispatch signerEnvOk "ncryptsec1xyz"
  have h1 := h.2.1 (by decide)
  ⟨h1, h.2.2.2.2.2.1 "Ncryptsec signers are not supported" h1⟩

/-- Claim C9: calling publishArticle while no signer is attached fails
immediately with the not-initialized error, with an empty action trace —
no event is built, signed, broadcast or waited on. -/
theorem publishArticle_requires_signer (pathname : String → String)
    (nowSec : Nat) (signOutcome : EventPayload → Except String String)
    (article : RektArticle) (markdownContent : String)
    (opts : PublishOptions) :
    publishArticle none pathname nowSec signOutcome article markdownContent opts
      = (Except.error "Publisher not initialized. Call initialize() first.",
         []) :=
  rfl

/-- Claim C10: an explicitly empty relays option is used as-is (the default
set is substituted only when the option is absent), so the event is
broadcast to zero relays, the quorum target is 0, and — since the quorum
check runs only on observed events, of which a zero-relay subscription
yields none — the wait resolves exactly when the timeout fires. -/
theorem publishArticle_empty_relays (sg : SignerKind)
    (pathname : String → String) (nowSec : Nat)
    (signOutcome : EventPayload → Except String String)
    (article : RektArticle) (markdownContent sstr : String) :
    resolveRelays { relays := some [], signerString := sstr } = []
    ∧ quorumTarget [] = 0
    ∧ (∀ eid, (∀ ev, signOutcome ev = Except.ok eid) →
        (publishArticle (some sg) pathname nowSec signOutcome article
          markdownContent { relays := some [], signerString := sstr }).2
        = [PubStep.build
            { kind := 30023, created_at := nowSec, content := markdownContent,
              tags := buildTags article (createArticleId (pathname article.url)) },
           PubStep.sign, PubStep.broadcast [], PubStep.waitConfirm []])
    ∧ (∀ trace : List WaitEvent, WaitEvent.obs ∉ trace →
        ((waitRun [] trace).resolved = true ↔ WaitEvent.timeoutFire ∈ trace)) := by
  refine ⟨rfl, rfl, ?_, ?_⟩
  · intro eid h
    simp [publishArticle, resolveRelays, h]
  · intro trace hobs
    constructor
    · intro hres
      by_contra htf
      have hnil : trace = [] := by
        refine List.eq_nil_iff_forall_not_mem.mpr (fun e he => ?_)
        cases e
        · exact hobs he
        · exact htf he
      rw [hnil] at hres
      simp [waitRun, waitInit] at hres
    · intro htf
      exact (waitRun_timeout_mem [] trace htf).1

/-- Witness for C10: a concrete publish with empty relay list broadcasts to
zero relays, and the zero-relay wait whose trace is just the timer firing
resolves. -/
theorem publishArticle_empty_relays_witness :
    ((publishArticle (some (SignerKind.privateKey "nsec1")) (fun _ => "/p") 0
        (fun _ => Except.ok "eid") articleW "body"
        { relays := some [], signerString := "nsec1" }).2
      = [PubStep.build
          { kind := 30023, created_at := 0, content := "body",
            tags := buildTags articleW (createArticleId "/p") },
         PubStep.sign, PubStep.broadcast [], PubStep.waitConfirm []])
    ∧ ((waitRun [] [WaitEvent.timeoutFire]).resolved = true
        ↔ WaitEvent.timeoutFire ∈ [WaitEvent.timeoutFire]) :=
  have h := publishArticle_empty_relays (SignerKind.privateKey "nsec1")
    (fun _ => "/p") 0 (fun _ => Except.ok "eid") articleW "body" "nsec1"
  ⟨h.2.2.1 "eid" (fun _ => rfl),
    h.2.2.2 [WaitEvent.timeoutFire] (by decide)⟩

end RektMirror
